import Mathlib

/-!
# Verification of the CareAgents data-access layer

A shallow embedding of the PostgreSQL repository layer
(`backend/database/postgresql/repository.py`), the connection manager
(`backend/database/postgresql/connection.py`) and the entity services
(`backend/services/patient_service.py`, `backend/services/user_service.py`,
`backend/services/onboarding_service.py`) of the CareAgents repository,
together with proofs and refutations of the specified properties.

Modelling conventions:
* a table row ("Record") is an association list from column name to value,
  preserving Python dict insertion order (updating an existing key keeps its
  position, a new key is appended);
* `datetime.utcnow()` is modelled as a monotone clock: two successive reads
  return values `t1 ≤ t2`, which may coincide (the real clock's microsecond
  resolution lets consecutive reads land on the same value) or differ. The
  deterministic operations thread a tick counter through the database state
  that advances on every read — one admissible behavior of that clock — and
  where the distinction between "may be equal" and "must differ" matters, the
  two reads of one `insert` are abstracted as an arbitrary admissible pair
  (see `insertOpAt`);
* complex (dict/list) values are opaque to the repository, exactly as in the
  source: `Value.vComplex p` carries the JSON text `p` that `json.dumps`
  would produce, and the write path replaces it by the string `Value.vStr p`;
* a `SELECT` without `ORDER BY` returns rows in table (insertion) order — the
  model fixes one of the orders PostgreSQL is free to choose; none of the
  results below depends on which order is fixed.
-/

set_option autoImplicit false

namespace CareAgents

/-- A column value as handled by the repository layer. -/
inductive Value where
  | vNull
  | vBool (b : Bool)
  | vInt (i : Int)
  | vStr (s : String)
  /-- a timestamp produced by `datetime.utcnow()`, as a clock tick -/
  | vTime (t : Nat)
  /-- a `datetime.date` -/
  | vDate (year : Int) (month day : Nat)
  /-- a dict/list value, opaque to the repository; `payload` is the JSON text
  that `json.dumps` would produce for it -/
  | vComplex (payload : String)
deriving Repr, DecidableEq

/-- One table row / one Python dict: column name to value, in insertion order. -/
abbrev Record := List (String × Value)

/-- Column names of a record, in order (Python `dict.keys()`). -/
def keysOf (r : Record) : List String := r.map Prod.fst

/-- Values of a record, in order (Python `dict.values()`). -/
def valuesOf (r : Record) : List Value := r.map Prod.snd

/-- `r[k]` for a Python dict modelled as an association list: first binding wins
(association lists built by `setKey` never hold duplicate keys). -/
def lookupField (r : Record) (k : String) : Option Value :=
  match r with
  | [] => none
  | (k', v) :: rest => if k' = k then some v else lookupField rest k

/-- `r[k] = v` for a Python dict: replaces the value in place if the key
exists (keeping its position, as Python dicts do), else appends the key. -/
def setKey (r : Record) (k : String) (v : Value) : Record :=
  match r with
  | [] => [(k, v)]
  | (k', v') :: rest => if k' = k then (k', v) :: rest else (k', v') :: setKey rest k v

/-- The conversion the repository applies to every bound value on the write
path: `if isinstance(value, (dict, list)): value = json.dumps(value)`.
Scalars pass through unchanged. -/
def toSqlValue : Value → Value
  | .vComplex p => .vStr p
  | v => v

/-- Convert a whole record to its stored form (every value bound as a SQL
parameter goes through `toSqlValue`). -/
def sqlRow (r : Record) : Record := r.map (fun kv => (kv.1, toSqlValue kv.2))

/-- State of one table plus the process clock feeding `datetime.utcnow()`. -/
structure Db where
  rows : List Record
  clock : Nat
deriving Repr, DecidableEq

/-! ## BaseRepository (backend/database/postgresql/repository.py) -/

/-- `insert(data)` (repository.py lines 58-90): stamps `created_at` and
`updated_at` with two separate `datetime.utcnow()` calls, builds the column
list from the dict's keys, converts complex values to JSON strings, executes
`INSERT ... RETURNING *` and returns the stored row. -/
def insertOp (db : Db) (data : Record) : Db × Record :=
  let d1 := setKey data "created_at" (Value.vTime db.clock)
  let d2 := setKey d1 "updated_at" (Value.vTime (db.clock + 1))
  let row := sqlRow d2
  ({ rows := db.rows ++ [row], clock := db.clock + 2 }, row)

/-- `insert(data)` with its two `datetime.utcnow()` reads abstracted: the
first read (stored into `created_at`) returns `t1`, the second (stored into
`updated_at`) returns `t2`. The real clock is monotone but two consecutive
reads need not differ, so every pair `t1 ≤ t2` — including `t1 = t2` — is an
admissible execution; `insertOp` is the particular instance `t1 = clock`,
`t2 = clock + 1` (see `insertOp_eq_insertOpAt`). -/
def insertOpAt (db : Db) (t1 t2 : Nat) (data : Record) : Db × Record :=
  let d1 := setKey data "created_at" (Value.vTime t1)
  let d2 := setKey d1 "updated_at" (Value.vTime t2)
  let row := sqlRow d2
  ({ rows := db.rows ++ [row], clock := t2 + 1 }, row)

/-- Does row `r` satisfy `idField = idValue`? (the `WHERE` of `find_by_id`,
`update`, `delete`). -/
def rowMatches (idField : String) (idValue : Value) (r : Record) : Bool :=
  decide (lookupField r idField = some idValue)

/-- `find_by_id(id_field, id_value)` (repository.py lines 136-151):
`SELECT * FROM t WHERE id_field = $1 LIMIT 1`, `None` when no row matches. -/
def findById (db : Db) (idField : String) (idValue : Value) : Option Record :=
  (db.rows.filter (rowMatches idField idValue)).head?

/-- `created_at` of a stored row, as a clock tick (0 if absent/not a time;
stored rows always carry one). Used to model `ORDER BY created_at DESC`. -/
def createdAtOf (r : Record) : Nat :=
  match lookupField r "created_at" with
  | some (.vTime t) => t
  | _ => 0

/-- Insert into a list kept in non-increasing `created_at` order. -/
def insertDesc (r : Record) : List Record → List Record
  | [] => [r]
  | x :: xs => if createdAtOf x < createdAtOf r then r :: x :: xs else x :: insertDesc r xs

/-- `ORDER BY created_at DESC` on a row set. -/
def sortByCreatedDesc (rs : List Record) : List Record := rs.foldr insertDesc []

/-- `find_all(limit, offset)` (repository.py lines 153-170):
`SELECT * ORDER BY created_at DESC LIMIT $1 OFFSET $2`. -/
def findAll (db : Db) (limit offset : Nat) : List Record :=
  ((sortByCreatedDesc db.rows).drop offset).take limit

/-- The conjunctive (AND-only) equality filter of `find_by_filter` / `count`. -/
def matchesFilter (filters : Record) (r : Record) : Bool :=
  filters.all (fun kv => decide (lookupField r kv.1 = some kv.2))

/-- `find_by_filter(filters, limit)` (repository.py lines 172-201): empty
filters fall back to `find_all(limit)`; otherwise `SELECT * WHERE f1 = $1 AND
... LIMIT $n` — note: no `ORDER BY`, no `OFFSET`. -/
def findByFilter (db : Db) (filters : Record) (limit : Nat) : List Record :=
  if filters.isEmpty then findAll db limit 0
  else (db.rows.filter (matchesFilter filters)).take limit

/-- `count(filters)` (repository.py lines 272-297). `filters = []` models
`filters=None`. -/
def countRows (db : Db) (filters : Record) : Nat :=
  if filters.isEmpty then db.rows.length
  else (db.rows.filter (matchesFilter filters)).length

/-- Number of rows satisfying `idField = idValue`: the row count the driver
reports in the `UPDATE n` command status. -/
def matchCount (db : Db) (idField : String) (idValue : Value) : Nat :=
  (db.rows.filter (rowMatches idField idValue)).length

/-- `asyncpg`'s command status for an UPDATE affecting `n` rows. -/
def updateStatus (n : Nat) : String := "UPDATE " ++ Nat.repr n

/-- `pat` occurs at the start of `l`. -/
def listStartsWith : List Char → List Char → Bool
  | _, [] => true
  | [], _ :: _ => false
  | a :: as, b :: bs => a == b && listStartsWith as bs

/-- `pat` occurs somewhere inside `l` (Python's `in` on strings). -/
def listContainsSeq : List Char → List Char → Bool
  | [], pat => pat.isEmpty
  | a :: rest, pat => listStartsWith (a :: rest) pat || listContainsSeq rest pat

/-- Python's `needle in haystack` on strings. -/
def strContainsSub (haystack needle : String) : Bool :=
  listContainsSeq haystack.data needle.data

/-- The boolean `update` returns: `"UPDATE 1" in result` (repository.py line
242), where `result` is the command status for `n` affected rows. -/
def updateReturn (n : Nat) : Bool := strContainsSub (updateStatus n) "UPDATE 1"

/-- Apply a SET clause: each `(field, value)` of the supplied mapping is
assigned, with complex values converted to JSON strings. -/
def applySets (r : Record) (sets : Record) : Record :=
  sets.foldl (fun acc kv => setKey acc kv.1 (toSqlValue kv.2)) r

/-- `update(id_field, id_value, data)` (repository.py lines 203-242): empty
`data` returns `False` with no database call; otherwise stamps
`data['updated_at'] = utcnow()`, builds the SET clause from the supplied
mapping only, runs `UPDATE t SET ... WHERE id_field = $n` and returns
`"UPDATE 1" in status`. The model, like the code, raises no exception on a
zero-row match. -/
def updateOp (db : Db) (idField : String) (idValue : Value) (data : Record) : Db × Bool :=
  if data.isEmpty then (db, false)
  else
    let sets := setKey data "updated_at" (Value.vTime db.clock)
    let rows' := db.rows.map (fun r => if rowMatches idField idValue r then applySets r sets else r)
    ({ rows := rows', clock := db.clock + 1 }, updateReturn (matchCount db idField idValue))

/-- `soft_delete(id_field, id_value)` (repository.py lines 259-270):
`update(id_field, id_value, {"is_active": False})`. -/
def softDelete (db : Db) (idField : String) (idValue : Value) : Db × Bool :=
  updateOp db idField idValue [("is_active", Value.vBool false)]

/-- Stamp one record with `created_at`/`updated_at` from two consecutive
clock reads (the two `utcnow()` calls of the per-record loop). -/
def stampRecord (clock : Nat) (r : Record) : Record :=
  setKey (setKey r "created_at" (Value.vTime clock)) "updated_at" (Value.vTime (clock + 1))

/-- Stamp a whole batch sequentially, two clock ticks per record
(`insert_many`'s first loop). -/
def stampAll (clock : Nat) : List Record → List Record
  | [] => []
  | r :: rs => stampRecord clock r :: stampAll (clock + 2) rs

/-- The per-record loop body of `insert_many`: bind each record's own
`values()` (complex values JSON-encoded) against the column list taken from
the first record. A value count differing from the placeholder count makes
the driver raise; the stored row pairs the i-th column name with the i-th
value of THIS record. -/
def bindRows (cols : List String) : List Record → Option (List Record)
  | [] => some []
  | r :: rs =>
    let vals := (valuesOf r).map toSqlValue
    if vals.length = cols.length then (bindRows cols rs).map (cols.zip vals :: ·) else none

/-- `insert_many(records)` (repository.py lines 92-134): empty input returns
`[]` before touching the database; otherwise every record is stamped, the
column list and placeholders are built from the FIRST record alone, and each
record's own `values()` are bound against that column list inside one
transaction. A record whose value count differs from the column count makes
the driver raise (placeholder arity mismatch), and the transaction persists
nothing. -/
def insertManyOp (db : Db) (records : List Record) : Except String (Db × List Record) :=
  match records with
  | [] => .ok (db, [])
  | r0 :: rest =>
    let stamped := stampAll db.clock (r0 :: rest)
    let cols := keysOf (stampRecord db.clock r0)
    match bindRows cols stamped with
    | none => .error "bind arity mismatch"
    | some newRows =>
        .ok ({ rows := db.rows ++ newRows, clock := db.clock + 2 * (r0 :: rest).length }, newRows)

/-! ## PatientService (backend/services/patient_service.py) -/

/-- A Python `datetime.date`. -/
structure PyDate where
  year : Int
  month : Nat
  day : Nat
deriving Repr, DecidableEq

/-- The age computation duplicated at patient_service.py lines 66-70 (create)
and 149-152 (update):
`age = today.year - dob.year; if today.month < dob.month or (today.month ==
dob.month and today.day < dob.day): age -= 1`. -/
def calcAge (dob today : PyDate) : Int :=
  let age := today.year - dob.year
  if today.month < dob.month ∨ (today.month = dob.month ∧ today.day < dob.day) then
    age - 1
  else
    age

/-- `PatientCreate` (backend/models/patient.py): the fields `create_patient`
reads. `gender`/`blood_type` carry the enum's string tag; the three nested
objects carry their JSON payloads. -/
structure PatientCreateM where
  first_name : String
  last_name : String
  date_of_birth : PyDate
  gender : String
  email : Option String := none
  phone : Option String := none
  address : Option String := none
  emergency_contact : Option String := none
  blood_type : Option String := none
  allergies : List String := []
  chronic_conditions : List String := []
  insurance_info : Option String := none
deriving Repr, DecidableEq

/-- A JSON array of strings, as `json.dumps` renders a Python list. -/
def jsonStrList (xs : List String) : String :=
  "[" ++ String.intercalate ", " (xs.map (fun s => "\"" ++ s ++ "\"")) ++ "]"

/-- An optional dict entry: present iff the value is (`exclude_none=True`). -/
def optField (k : String) (v : Option Value) : Record :=
  match v with
  | none => []
  | some x => [(k, x)]

/-- The `patient_dict` that `create_patient` (patient_service.py lines 45-96)
passes to `repository.insert`: `model_dump(exclude_none=True)` of the payload
in field order, then `patient_id` (fresh uuid, here a parameter), optional
`user_id`, the computed `age` (`date_of_birth` is a required field, so the
age is always computed), and `is_active = True`. -/
def createPatientDict (p : PatientCreateM) (newId : String) (userId : Option String)
    (today : PyDate) : Record :=
  [("first_name", .vStr p.first_name), ("last_name", .vStr p.last_name),
   ("date_of_birth", .vDate p.date_of_birth.year p.date_of_birth.month p.date_of_birth.day),
   ("gender", .vStr p.gender)]
  ++ optField "email" (p.email.map .vStr)
  ++ optField "phone" (p.phone.map .vStr)
  ++ optField "address" (p.address.map .vComplex)
  ++ optField "emergency_contact" (p.emergency_contact.map .vComplex)
  ++ optField "blood_type" (p.blood_type.map .vStr)
  ++ [("allergies", .vComplex (jsonStrList p.allergies)),
      ("chronic_conditions", .vComplex (jsonStrList p.chronic_conditions))]
  ++ optField "insurance_info" (p.insurance_info.map .vComplex)
  ++ [("patient_id", .vStr newId)]
  ++ optField "user_id" (userId.map .vStr)
  ++ [("age", .vInt (calcAge p.date_of_birth today)), ("is_active", .vBool true)]

/-- `create_patient`: build the dict and insert it; returns the stored row. -/
def createPatientOp (db : Db) (p : PatientCreateM) (newId : String)
    (userId : Option String) (today : PyDate) : Db × Record :=
  insertOp db (createPatientDict p newId userId today)

/-- The `update_dict` rewrite of `update_patient` (patient_service.py lines
145-153): when the payload contains `date_of_birth`, recompute `age` from it
with the same calendar-exact formula. -/
def updatePatientDict (upd : Record) (today : PyDate) : Record :=
  match lookupField upd "date_of_birth" with
  | some (.vDate y m d) => setKey upd "age" (.vInt (calcAge ⟨y, m, d⟩ today))
  | _ => upd

/-- The result dict of `list_patients` (patient_service.py lines 190-219). -/
structure PageResult where
  patients : List Record
  total : Nat
  page : Nat
  page_size : Nat
  total_pages : Nat
deriving Repr, DecidableEq

/-- `list_patients(page, page_size, active_only)` (patient_service.py lines
190-219), translated line by line: `offset = (page - 1) * page_size` is
computed, but the `active_only` branch calls
`find_by_filter({"is_active": True}, limit=page_size)`, which takes no
offset; only the `else` branch passes the offset to `find_all`. -/
def listPatients (db : Db) (page pageSize : Nat) (activeOnly : Bool) : PageResult :=
  let offset := (page - 1) * pageSize
  if activeOnly then
    let patients := findByFilter db [("is_active", .vBool true)] pageSize
    let total := countRows db [("is_active", .vBool true)]
    { patients := patients, total := total, page := page, page_size := pageSize,
      total_pages := (total + pageSize - 1) / pageSize }
  else
    let patients := findAll db pageSize offset
    let total := countRows db []
    { patients := patients, total := total, page := page, page_size := pageSize,
      total_pages := (total + pageSize - 1) / pageSize }

/-! ## OnboardingService and UserService
(backend/services/onboarding_service.py, backend/services/user_service.py) -/

/-- The tags of the `Gender` enum (backend/models/patient.py lines 10-15). -/
def genderTags : List String := ["Male", "Female", "Other", "Prefer not to say"]

/-- The tags of the `BloodType` enum (backend/models/patient.py lines 18-27). -/
def bloodTypeTags : List String := ["A+", "A-", "B+", "B-", "AB+", "AB-", "O+", "O-"]

/-- `onboard_patient`'s gender validation (onboarding_service.py lines 59-63):
`try: Gender(gender) except ValueError: Gender.PREFER_NOT_TO_SAY` — an
unrecognized tag falls back, it does not raise. -/
def parseGender (s : String) : String :=
  if genderTags.contains s then s else "Prefer not to say"

/-- `onboard_patient`'s blood-type validation (onboarding_service.py lines
65-71): an unrecognized tag is silently dropped (`pass` leaves it `None`). -/
def parseBloodType (s : String) : Option String :=
  if bloodTypeTags.contains s then some s else none

/-- The method names `class UserService` defines
(backend/services/user_service.py): Python resolves `self.user_service.<name>`
against this set; any other name raises `AttributeError`. -/
def userServiceMethods : List String :=
  ["create_user", "get_user_by_firebase_uid", "get_user_by_email",
   "get_user_by_id", "update_user", "update_last_login", "set_user_onboarded"]

/-- The two tables `onboard_patient` touches. -/
structure AppDb where
  patients : Db
  users : Db
deriving Repr, DecidableEq

/-- Outcome of one `onboard_patient` call. -/
inductive OnboardResult where
  /-- the call returned the created patient dict -/
  | ok (patient : Record)
  /-- the call raised `AttributeError: 'UserService' object has no attribute
  `missing`' -/
  | attributeError (missing : String)
  /-- the call raised a duplicate-profile conflict (never produced by the
  code; listed so the spec's expected outcome is expressible) -/
  | conflict
deriving Repr, DecidableEq

/-- The scalar inputs of `onboard_patient`. -/
structure OnboardInput where
  user_id : String
  first_name : String
  last_name : String
  date_of_birth : PyDate
  gender : String
  phone : Option String := none
  email : Option String := none
  blood_type : Option String := none
  allergies : List String := []
  chronic_conditions : List String := []
deriving Repr, DecidableEq

/-- `onboard_patient` (onboarding_service.py lines 26-98), translated line by
line: validate gender with fallback, validate blood type by dropping,
build `PatientCreate`, call `create_patient` (which INSERTs the profile row —
with no check whether a profile for `user_id` already exists), then call
`self.user_service.mark_as_onboarded(user_id)`. `UserService` defines no
method of that name (its method is `set_user_onboarded`), so attribute
resolution fails and the call raises `AttributeError` — after the insert has
already been committed. The would-be success branch (guarded by the method
existing) is the `set_user_onboarded` flag update. -/
def onboardPatientOp (app : AppDb) (inp : OnboardInput) (newId : String)
    (today : PyDate) : AppDb × OnboardResult :=
  let pc : PatientCreateM :=
    { first_name := inp.first_name, last_name := inp.last_name,
      date_of_birth := inp.date_of_birth, gender := parseGender inp.gender,
      email := inp.email, phone := inp.phone,
      blood_type := inp.blood_type.bind parseBloodType,
      allergies := inp.allergies, chronic_conditions := inp.chronic_conditions }
  let (pdb, row) := createPatientOp app.patients pc newId (some inp.user_id) today
  let app' : AppDb := { app with patients := pdb }
  if userServiceMethods.contains "mark_as_onboarded" then
    let (udb, _) := updateOp app'.users "user_id" (.vStr inp.user_id)
      [("is_onboarded", .vBool true)]
    ({ app' with users := udb }, .ok row)
  else
    (app', .attributeError "mark_as_onboarded")

/-! ## PostgreSQLConnection.get_pool
(backend/database/postgresql/connection.py lines 43-52)

`get_pool` runs `if self._pool is None: self._pool = await
self._create_pool()` with no lock. The null check and the start of
`_create_pool` are atomic (no await between them), but the task suspends
inside `await self._create_pool()`; the assignment to `self._pool` happens
only after the await completes. The interleaving of two first callers is
modelled as a transition system over the shared `_pool` cell; `created`
counts completed `_create_pool` calls (each one opens a real pool). -/

/-- Program counter of one task running `get_pool`. -/
inductive TaskPc where
  /-- about to execute the `if self._pool is None` check -/
  | ready
  /-- suspended inside `await self._create_pool()` -/
  | creating
  /-- returned from `get_pool` -/
  | finished
deriving Repr, DecidableEq

/-- Shared state: the `_pool` cell (pools numbered by creation order), the
count of pools ever created, and the two tasks' program counters. -/
structure PoolState where
  pool : Option Nat
  created : Nat
  a : TaskPc
  b : TaskPc
deriving Repr, DecidableEq

/-- One scheduler step of the two tasks interleaving through `get_pool`. -/
inductive PoolStep : PoolState → PoolState → Prop where
  /-- task A checks, `_pool` already set: return it -/
  | aHit (s : PoolState) (p : Nat) : s.a = .ready → s.pool = some p →
      PoolStep s { s with a := .finished }
  /-- task A checks, `_pool` is None: start `_create_pool`, suspend at the await -/
  | aMiss (s : PoolState) : s.a = .ready → s.pool = none →
      PoolStep s { s with a := .creating }
  /-- task A's `_create_pool` completes (a new pool now exists) and is
  assigned to `_pool` -/
  | aAssign (s : PoolState) : s.a = .creating →
      PoolStep s { s with pool := some s.created, created := s.created + 1, a := .finished }
  /-- task B checks, `_pool` already set: return it -/
  | bHit (s : PoolState) (p : Nat) : s.b = .ready → s.pool = some p →
      PoolStep s { s with b := .finished }
  /-- task B checks, `_pool` is None: start `_create_pool`, suspend at the await -/
  | bMiss (s : PoolState) : s.b = .ready → s.pool = none →
      PoolStep s { s with b := .creating }
  /-- task B's `_create_pool` completes and is assigned to `_pool` -/
  | bAssign (s : PoolState) : s.b = .creating →
      PoolStep s { s with pool := some s.created, created := s.created + 1, b := .finished }

/-- Reachability through `PoolStep`. -/
inductive PoolReach : PoolState → PoolState → Prop where
  | refl (s : PoolState) : PoolReach s s
  | step (s t u : PoolState) : PoolStep s t → PoolReach t u → PoolReach s u

/-- Both tasks about to make their first `get_pool` call, no pool yet. -/
def poolInit : PoolState := { pool := none, created := 0, a := .ready, b := .ready }

/-! ## Helper lemmas about records and the repository operations -/

theorem lookupField_setKey_self (r : Record) (k : String) (v : Value) :
    lookupField (setKey r k v) k = some v := by
  induction r with
  | nil => simp [setKey, lookupField]
  | cons kv rest ih =>
    by_cases h : kv.1 = k
    · simp [setKey, h, lookupField]
    · simp [setKey, h, lookupField, ih]

theorem lookupField_setKey_ne (r : Record) (k k' : String) (v : Value) (h : k' ≠ k) :
    lookupField (setKey r k v) k' = lookupField r k' := by
  induction r with
  | nil => simp [setKey, lookupField, Ne.symm h]
  | cons kv rest ih =>
    by_cases hk : kv.1 = k
    · simp [setKey, hk, lookupField, Ne.symm h]
    · simp [setKey, hk, lookupField, ih]

theorem keysOf_cons (kv : String × Value) (l : Record) : keysOf (kv :: l) = kv.1 :: keysOf l := rfl

theorem keysOf_setKey (r : Record) (k : String) (v : Value) :
    keysOf (setKey r k v) = if k ∈ keysOf r then keysOf r else keysOf r ++ [k] := by
  induction r with
  | nil => simp [setKey, keysOf]
  | cons kv rest ih =>
    by_cases hk : kv.1 = k
    · subst hk
      simp [setKey, keysOf_cons]
    · have hk' : ¬ (k = kv.1) := fun hh => hk hh.symm
      simp only [setKey, if_neg hk, keysOf_cons, ih]
      by_cases hmem : k ∈ keysOf rest
      · simp [hmem, hk']
      · simp [hmem, hk']

theorem lookupField_sqlRow (r : Record) (k : String) :
    lookupField (sqlRow r) k = (lookupField r k).map toSqlValue := by
  induction r with
  | nil => simp [sqlRow, lookupField]
  | cons kv rest ih =>
    by_cases h : kv.1 = k
    · simp [sqlRow, lookupField, h]
    · simp [sqlRow, lookupField, h] at ih ⊢
      exact ih

theorem lookupField_applySets_notMem (sets : Record) (r : Record) (k : String)
    (h : ¬ k ∈ keysOf sets) :
    lookupField (applySets r sets) k = lookupField r k := by
  induction sets generalizing r with
  | nil => simp [applySets]
  | cons kv rest ih =>
    simp [keysOf] at h
    push_neg at h
    simp only [applySets, List.foldl_cons] at ih ⊢
    rw [ih _ (by simpa [keysOf] using h.2)]
    exact lookupField_setKey_ne r kv.1 k (toSqlValue kv.2) h.1

theorem lookupField_append (l₁ l₂ : Record) (k : String) :
    lookupField (l₁ ++ l₂) k
      = match lookupField l₁ k with
        | some v => some v
        | none => lookupField l₂ k := by
  induction l₁ with
  | nil => simp [lookupField]
  | cons kv rest ih =>
    by_cases h : kv.1 = k
    · simp [lookupField, h]
    · simp [lookupField, h, ih]

theorem lookupField_optField_ne (k k' : String) (v : Option Value) (h : k' ≠ k) :
    lookupField (optField k v) k' = none := by
  cases v with
  | none => simp [optField, lookupField]
  | some x => simp [optField, lookupField, Ne.symm h]

theorem valuesOf_cons (kv : String × Value) (l : Record) :
    valuesOf (kv :: l) = kv.2 :: valuesOf l := rfl

theorem sqlRow_cons (kv : String × Value) (l : Record) :
    sqlRow (kv :: l) = (kv.1, toSqlValue kv.2) :: sqlRow l := rfl

theorem zip_keys_values (r : Record) :
    (keysOf r).zip ((valuesOf r).map toSqlValue) = sqlRow r := by
  induction r with
  | nil => rfl
  | cons kv rest ih =>
    simp only [keysOf_cons, valuesOf_cons, sqlRow_cons, List.map_cons, List.zip_cons_cons, ih]

theorem length_valuesOf_keysOf (r : Record) : (valuesOf r).length = (keysOf r).length := by
  simp [valuesOf, keysOf]

theorem filter_map_comm (l : List Record) (g : Record → Record) (p : Record → Bool)
    (h : ∀ r, p (g r) = p r) :
    (l.map g).filter p = (l.filter p).map g := by
  induction l with
  | nil => simp
  | cons r rest ih =>
    by_cases hp : p r
    · simp [List.filter_cons, h, hp, ih]
    · simp only [Bool.not_eq_true] at hp
      simp [List.filter_cons, h, hp, ih]

theorem map_lookup_congr (l : List Record) (g : Record → Record) (f : String)
    (h : ∀ r, lookupField (g r) f = lookupField r f) :
    (l.map g).map (fun r => lookupField r f) = l.map (fun r => lookupField r f) := by
  induction l with
  | nil => simp
  | cons r rest ih => simp [h, ih]

/-! ## Concrete fixtures used by the claim theorems and witnesses -/

/-- A stored active patient row, `created_at = 5` (the newer of the two). -/
def pagRow1 : Record :=
  [("patient_id", .vStr "p1"), ("is_active", .vBool true),
   ("created_at", .vTime 5), ("updated_at", .vTime 6)]

/-- A stored active patient row, `created_at = 3` (the older of the two). -/
def pagRow2 : Record :=
  [("patient_id", .vStr "p2"), ("is_active", .vBool true),
   ("created_at", .vTime 3), ("updated_at", .vTime 4)]

/-- A patients table with exactly two active records. -/
def pagDb : Db := { rows := [pagRow1, pagRow2], clock := 10 }

/-- A stored user row, not yet onboarded. -/
def user1Row : Record :=
  [("user_id", .vStr "u1"), ("email", .vStr "u1@example.com"),
   ("is_onboarded", .vBool false), ("is_active", .vBool true),
   ("created_at", .vTime 0), ("updated_at", .vTime 1)]

/-- Initial application state: no patient profiles, one user `u1`. -/
def onboardApp0 : AppDb :=
  { patients := { rows := [], clock := 0 }, users := { rows := [user1Row], clock := 2 } }

/-- A valid onboarding request for user `u1`. -/
def onboardInp : OnboardInput :=
  { user_id := "u1", first_name := "Ada", last_name := "Lovelace",
    date_of_birth := ⟨2000, 6, 15⟩, gender := "Female" }

/-- First onboarding call for `u1`. -/
def onboardStep1 : AppDb × OnboardResult :=
  onboardPatientOp onboardApp0 onboardInp "p1" ⟨2024, 6, 14⟩

/-- Duplicate onboarding call for the same user `u1`. -/
def onboardStep2 : AppDb × OnboardResult :=
  onboardPatientOp onboardStep1.1 onboardInp "p2" ⟨2024, 6, 14⟩

/-- An onboarding request with an unrecognized gender tag and an
unrecognized blood-type tag. -/
def badEnumInp : OnboardInput :=
  { user_id := "u1", first_name := "Ada", last_name := "Lovelace",
    date_of_birth := ⟨2000, 6, 15⟩, gender := "Banana", blood_type := some "Z+" }

/-- Onboarding call with the unrecognized enum tags. -/
def badEnumStep : AppDb × OnboardResult :=
  onboardPatientOp onboardApp0 badEnumInp "p1" ⟨2024, 6, 14⟩

/-- A row whose column `k` is not unique across the table. -/
def c5Row : Record := [("k", .vStr "x")]

/-- A table in which ten rows share the same value of column `k`. -/
def c5Db10 : Db := { rows := List.replicate 10 c5Row, clock := 0 }

/-- An insert of a one-column payload into an empty table at clock 0. -/
def c2Ins : Db × Record := insertOp { rows := [], clock := 0 } [("user_id", Value.vStr "u1")]

/-! ## Claim theorems -/

/-- C1: the claim says `list_patients` with `active_only` pages active
records: pages `1..ceil(N/P)` return every active record exactly once, in
non-increasing `created_at` order. The code computes `offset` but the
`active_only` branch calls `find_by_filter`, which has neither `OFFSET` nor
`ORDER BY`, so every page issues the same query: with two active records and
page size 1 (so `total_pages = 2`), pages 1 and 2 both return the first
record and the second active record appears on no page. -/
theorem C1_active_pagination_repeats_first_page :
    countRows pagDb [("is_active", Value.vBool true)] = 2 ∧
    (listPatients pagDb 1 1 true).total_pages = 2 ∧
    (listPatients pagDb 1 1 true).patients = [pagRow1] ∧
    (listPatients pagDb 2 1 true).patients = [pagRow1] ∧
    pagRow2 ∈ pagDb.rows ∧
    matchesFilter [("is_active", Value.vBool true)] pagRow2 = true ∧
    ¬ pagRow2 ∈ (listPatients pagDb 1 1 true).patients
        ++ (listPatients pagDb 2 1 true).patients := by
  decide

/-- C3: the claim says onboarding sets the user's `is_onboarded` flag to true
and a duplicate request fails with a conflict. In the code `onboard_patient`
calls `self.user_service.mark_as_onboarded(...)`, but `UserService` defines
no such method (its method is `set_user_onboarded`), so every call raises
`AttributeError` after the profile row is already inserted: the flag is never
set, and a duplicate call inserts a second profile row for the same user
instead of failing with a conflict. -/
theorem C3_onboarding_attribute_error :
    userServiceMethods.contains "mark_as_onboarded" = false ∧
    onboardStep1.2 = .attributeError "mark_as_onboarded" ∧
    onboardStep2.2 = .attributeError "mark_as_onboarded" ∧
    matchCount onboardStep2.1.patients "user_id" (.vStr "u1") = 2 ∧
    (findById onboardStep2.1.users "user_id" (.vStr "u1")).map
        (fun r => lookupField r "is_onboarded") = some (some (.vBool false)) ∧
    onboardStep1.2 ≠ .conflict ∧ onboardStep2.2 ≠ .conflict := by
  decide

/-- C9: the claim says `get_pool`'s lazy first-initialization is mutually
exclusive, so at most one pool is ever created. The code has no lock: the
null check and the assignment are separated by `await self._create_pool()`,
so both first callers can pass the check before either assigns. This
interleaving (A checks, B checks, A creates+assigns, B creates+assigns)
reaches a state in which `created = 2`: two pools were created (the first
one is overwritten and leaked). -/
theorem C9_two_pools_created_without_guard :
    PoolReach poolInit { pool := some 1, created := 2, a := .finished, b := .finished } := by
  refine PoolReach.step _ ⟨none, 0, .creating, .ready⟩ _ (PoolStep.aMiss _ rfl rfl) ?_
  refine PoolReach.step _ ⟨none, 0, .creating, .creating⟩ _ (PoolStep.bMiss _ rfl rfl) ?_
  refine PoolReach.step _ ⟨some 0, 1, .finished, .creating⟩ _ (PoolStep.aAssign _ rfl) ?_
  refine PoolReach.step _ ⟨some 1, 2, .finished, .finished⟩ _ (PoolStep.bAssign _ rfl) ?_
  exact PoolReach.refl _

/-- C2 counterexample: the claim requires `created_at == updated_at` on the
record returned by `find_by_id` right after `insert`. The code stamps the two
fields with two separate `datetime.utcnow()` calls, so with a clock that
advances between reads the two timestamps differ: inserting at clock 0 stores
`created_at` tick 0 and `updated_at` tick 1. -/
theorem C2_counterexample :
    ((findById c2Ins.1 "user_id" (Value.vStr "u1")).bind
        (fun r => lookupField r "created_at") = some (.vTime 0)) ∧
    ((findById c2Ins.1 "user_id" (Value.vStr "u1")).bind
        (fun r => lookupField r "updated_at") = some (.vTime 1)) ∧
    Value.vTime 0 ≠ Value.vTime 1 := by
  decide

/-- C4 counterexample: the claim says an unrecognized gender or blood type
fails with a `ValidationError` before any database call, with no fallback
stored. Onboarding with gender `"Banana"` and blood type `"Z+"` instead
inserts the profile row (the table grows by one), storing the fallback gender
`"Prefer not to say"` and silently dropping the blood type. -/
theorem C4_counterexample :
    badEnumStep.1.patients.rows.length = onboardApp0.patients.rows.length + 1 ∧
    (badEnumStep.1.patients.rows.head?.bind (fun r => lookupField r "gender"))
        = some (.vStr "Prefer not to say") ∧
    (badEnumStep.1.patients.rows.head?.bind (fun r => lookupField r "blood_type")) = none := by
  decide

theorem filter_eq_nil_of (l : List Record) (p : Record → Bool)
    (h : ∀ r ∈ l, p r = false) : l.filter p = [] := by
  induction l with
  | nil => rfl
  | cons r rest ih =>
    rw [List.filter_cons, if_neg (by simp [h r (by simp)])]
    exact ih (fun x hx => h x (by simp [hx]))

/-- `insertOp` is the instance of the read-abstracted insert in which the
clock advances between the two `utcnow()` reads. -/
theorem insertOp_eq_insertOpAt (db : Db) (data : Record) :
    insertOp db data = insertOpAt db db.clock (db.clock + 1) data := rfl

/-- C2 (amended): for every insert payload and every admissible pair of
clock reads `t1 ≤ t2` (the reads may coincide or differ — the code gives no
stronger guarantee), `find_by_id` on the identifying value immediately after
`insert` returns exactly the stored row; its `created_at` carries the first
read and its `updated_at` the second, both stamped by the repository itself
— so `created_at ≤ updated_at`, with equality not guaranteed — any
caller-supplied timestamps are overwritten (the conclusion holds for
arbitrary `data`, including one carrying its own
`created_at`/`updated_at`), and the identifying column equals the inserted
value. -/
theorem C2_insert_stamps_monotone (db : Db) (t1 t2 : Nat) (data : Record)
    (idf : String) (idv : Value)
    (ht : t1 ≤ t2)
    (hscalar : toSqlValue idv = idv)
    (hdata : lookupField data idf = some idv)
    (hca : idf ≠ "created_at") (hua : idf ≠ "updated_at")
    (hfresh : ∀ r ∈ db.rows, ¬ lookupField r idf = some idv) :
    findById (insertOpAt db t1 t2 data).1 idf idv = some (insertOpAt db t1 t2 data).2 ∧
    lookupField (insertOpAt db t1 t2 data).2 "created_at" = some (.vTime t1) ∧
    lookupField (insertOpAt db t1 t2 data).2 "updated_at" = some (.vTime t2) ∧
    lookupField (insertOpAt db t1 t2 data).2 idf = some idv ∧
    t1 ≤ t2 := by
  have hrow2 : (insertOpAt db t1 t2 data).2
      = sqlRow (setKey (setKey data "created_at" (Value.vTime t1))
          "updated_at" (Value.vTime t2)) := rfl
  have hrow1 : (insertOpAt db t1 t2 data).1.rows
      = db.rows ++ [(insertOpAt db t1 t2 data).2] := rfl
  have hid : lookupField (insertOpAt db t1 t2 data).2 idf = some idv := by
    rw [hrow2, lookupField_sqlRow, lookupField_setKey_ne _ _ _ _ hua,
      lookupField_setKey_ne _ _ _ _ hca, hdata, Option.map_some']
    rw [hscalar]
  have hcreated : lookupField (insertOpAt db t1 t2 data).2 "created_at"
      = some (.vTime t1) := by
    rw [hrow2, lookupField_sqlRow, lookupField_setKey_ne _ _ _ _ (by decide),
      lookupField_setKey_self]
    rfl
  have hupdated : lookupField (insertOpAt db t1 t2 data).2 "updated_at"
      = some (.vTime t2) := by
    rw [hrow2, lookupField_sqlRow, lookupField_setKey_self]
    rfl
  refine ⟨?_, hcreated, hupdated, hid, ht⟩
  unfold findById
  rw [hrow1, List.filter_append,
    filter_eq_nil_of _ _ (fun r hr => by simp [rowMatches, hfresh r hr]),
    List.filter_cons, if_pos (by simp [rowMatches, hid])]
  rfl

/-- Witness for C2: inserting `{"user_id": "u1"}` into an empty table with
both clock reads returning 0 (the equal-reads execution) satisfies every
hypothesis, and the find-after-insert facts hold. -/
theorem C2_insert_stamps_monotone_witness :
    findById (insertOpAt { rows := [], clock := 0 } 0 0
        [("user_id", Value.vStr "u1")]).1 "user_id" (Value.vStr "u1")
      = some (insertOpAt { rows := [], clock := 0 } 0 0
          [("user_id", Value.vStr "u1")]).2 ∧
    lookupField (insertOpAt { rows := [], clock := 0 } 0 0
        [("user_id", Value.vStr "u1")]).2 "created_at" = some (.vTime 0) ∧
    lookupField (insertOpAt { rows := [], clock := 0 } 0 0
        [("user_id", Value.vStr "u1")]).2 "updated_at" = some (.vTime 0) ∧
    lookupField (insertOpAt { rows := [], clock := 0 } 0 0
        [("user_id", Value.vStr "u1")]).2 "user_id" = some (Value.vStr "u1") ∧
    (0 : Nat) ≤ 0 :=
  C2_insert_stamps_monotone { rows := [], clock := 0 } 0 0
    [("user_id", Value.vStr "u1")] "user_id" (Value.vStr "u1")
    (Nat.le_refl 0) rfl rfl (by decide) (by decide) (by simp)

/-- C5 counterexample: the claim says `update` returns true iff exactly one
row was affected. The code returns `"UPDATE 1" in status`, a substring test:
on a table where ten rows match the given id (`status = "UPDATE 10"`) it
returns true although ten rows, not one, were affected. -/
theorem C5_counterexample :
    matchCount c5Db10 "k" (Value.vStr "x") = 10 ∧
    (updateOp c5Db10 "k" (Value.vStr "x") [("f", Value.vInt 1)]).2 = true := by
  decide

/-- C5 (amended): for every call to `update(id_field, id_value, data)` with a
nonempty payload, the returned boolean is `"UPDATE 1" in status`, i.e. it is
true exactly when the decimal representation of the affected-row count starts
with the digit 1: true when exactly one row was affected, false (without any
exception — the operation is total) when no row matched, but ALSO true when
e.g. ten rows were affected, so "true iff exactly one row" does not hold. -/
theorem C5_update_returns_substring_check (db : Db) (idf : String) (idv : Value)
    (data : Record) (hne : data ≠ []) :
    (updateOp db idf idv data).2 = updateReturn (matchCount db idf idv) ∧
    (matchCount db idf idv = 0 → (updateOp db idf idv data).2 = false) ∧
    (matchCount db idf idv = 1 → (updateOp db idf idv data).2 = true) ∧
    (matchCount db idf idv = 10 → (updateOp db idf idv data).2 = true) := by
  have hni : data.isEmpty = false := by
    cases data with
    | nil => exact absurd rfl hne
    | cons a l => rfl
  have h0 : (updateOp db idf idv data).2 = updateReturn (matchCount db idf idv) := by
    simp [updateOp, hni]
  refine ⟨h0, ?_, ?_, ?_⟩ <;> intro h <;> rw [h0, h] <;> decide

/-- Witness for C5: a one-row table where the row matches; the payload is
nonempty and the update returns the substring-check result (true, count 1). -/
theorem C5_update_returns_substring_check_witness :
    ([(("f" : String), Value.vInt 1)] ≠ []) ∧
    ((updateOp { rows := [c5Row], clock := 0 } "k" (Value.vStr "x")
        [("f", Value.vInt 1)]).2
      = updateReturn (matchCount { rows := [c5Row], clock := 0 } "k" (Value.vStr "x"))) ∧
    (matchCount { rows := [c5Row], clock := 0 } "k" (Value.vStr "x") = 1 →
      (updateOp { rows := [c5Row], clock := 0 } "k" (Value.vStr "x")
        [("f", Value.vInt 1)]).2 = true) :=
  ⟨by decide,
   (C5_update_returns_substring_check { rows := [c5Row], clock := 0 } "k"
      (Value.vStr "x") [("f", Value.vInt 1)] (by decide)).1,
   (C5_update_returns_substring_check { rows := [c5Row], clock := 0 } "k"
      (Value.vStr "x") [("f", Value.vInt 1)] (by decide)).2.2.1⟩

/-- C6: for every stored record and update payload omitting a field `f`
(other than `updated_at`), the stored value of `f` in every row — matched or
not — is unchanged after `update`: the SET clause is built from the supplied
mapping plus `updated_at` only. -/
theorem C6_partial_update_frame (db : Db) (idf : String) (idv : Value) (data : Record)
    (f : String) (hf : ¬ f ∈ keysOf data) (hfu : f ≠ "updated_at")
    (_hres : (updateOp db idf idv data).2 = true) :
    (updateOp db idf idv data).1.rows.map (fun r => lookupField r f)
      = db.rows.map (fun r => lookupField r f) := by
  cases hdata : data.isEmpty with
  | true => simp [updateOp, hdata]
  | false =>
    have hsets : ¬ f ∈ keysOf (setKey data "updated_at" (Value.vTime db.clock)) := by
      rw [keysOf_setKey]
      by_cases hmem : "updated_at" ∈ keysOf data
      · rw [if_pos hmem]; exact hf
      · rw [if_neg hmem]
        intro hc
        rcases List.mem_append.mp hc with h | h
        · exact hf h
        · simp at h; exact hfu h
    have hrows : (updateOp db idf idv data).1.rows
        = db.rows.map (fun r => if rowMatches idf idv r
            then applySets r (setKey data "updated_at" (Value.vTime db.clock)) else r) := by
      simp [updateOp, hdata]
    rw [hrows]
    apply map_lookup_congr
    intro r
    by_cases hm : rowMatches idf idv r
    · simp only [hm, if_true]
      exact lookupField_applySets_notMem _ _ _ hsets
    · simp [hm]

/-- Witness for C6: updating the matching row of a one-row table with a
payload `{"f": 1}` that omits the field `"g"` leaves `"g"`'s stored values
unchanged; all hypotheses hold at this input. -/
theorem C6_partial_update_frame_witness :
    (¬ ("g" : String) ∈ keysOf [("f", Value.vInt 1)]) ∧
    (("g" : String) ≠ "updated_at") ∧
    ((updateOp { rows := [c5Row], clock := 0 } "k" (Value.vStr "x")
        [("f", Value.vInt 1)]).2 = true) ∧
    ((updateOp { rows := [c5Row], clock := 0 } "k" (Value.vStr "x")
        [("f", Value.vInt 1)]).1.rows.map (fun r => lookupField r "g")
      = ({ rows := [c5Row], clock := 0 } : Db).rows.map (fun r => lookupField r "g")) :=
  ⟨by decide, by decide, by decide,
   C6_partial_update_frame { rows := [c5Row], clock := 0 } "k" (Value.vStr "x")
     [("f", Value.vInt 1)] "g" (by decide) (by decide) (by decide)⟩

theorem lookupField_optField_self (k : String) (v : Option Value) :
    lookupField (optField k v) k = v := by
  cases v with
  | none => rfl
  | some x => simp [optField, lookupField]

theorem lookupField_createPatientDict_age (p : PatientCreateM) (i : String)
    (u : Option String) (t : PyDate) :
    lookupField (createPatientDict p i u t) "age"
      = some (.vInt (calcAge p.date_of_birth t)) := by
  simp [createPatientDict, lookupField_append, lookupField, lookupField_optField_ne]

theorem lookupField_createPatientDict_gender (p : PatientCreateM) (i : String)
    (u : Option String) (t : PyDate) :
    lookupField (createPatientDict p i u t) "gender" = some (.vStr p.gender) := by
  simp [createPatientDict, lookupField_append, lookupField, lookupField_optField_ne]

theorem lookupField_createPatientDict_bloodType (p : PatientCreateM) (i : String)
    (u : Option String) (t : PyDate) :
    lookupField (createPatientDict p i u t) "blood_type" = p.blood_type.map .vStr := by
  simp [createPatientDict, lookupField_append, lookupField, lookupField_optField_ne,
    lookupField_optField_self]
  cases p.blood_type <;> rfl

/-- C7: patient age is computed at write time (on `create_patient` and on
every `update_patient` whose payload contains `date_of_birth`) by the
calendar-exact rule that subtracts one year when the birthday has not yet
occurred: for `date_of_birth = 2000-06-15`, the age stored in the write dict
is 23 on system date 2024-06-14 and 24 on 2024-06-15 or any later 2024 date,
on both the insert path and the update path. -/
theorem C7_age_calendar_exact (p : PatientCreateM) (i : String) (u : Option String)
    (hdob : p.date_of_birth = ⟨2000, 6, 15⟩) (m d : Nat)
    (hlater : 6 < m ∨ (m = 6 ∧ 15 ≤ d)) :
    lookupField (createPatientDict p i u ⟨2024, 6, 14⟩) "age" = some (.vInt 23) ∧
    lookupField (createPatientDict p i u ⟨2024, m, d⟩) "age" = some (.vInt 24) ∧
    lookupField (updatePatientDict [("date_of_birth", .vDate 2000 6 15)] ⟨2024, 6, 14⟩)
        "age" = some (.vInt 23) ∧
    lookupField (updatePatientDict [("date_of_birth", .vDate 2000 6 15)] ⟨2024, m, d⟩)
        "age" = some (.vInt 24) := by
  have h23 : calcAge ⟨2000, 6, 15⟩ ⟨2024, 6, 14⟩ = 23 := by decide
  have h24 : calcAge ⟨2000, 6, 15⟩ ⟨2024, m, d⟩ = 24 := by
    unfold calcAge
    dsimp only
    rw [if_neg (by omega)]
    decide
  refine ⟨?_, ?_, ?_, ?_⟩
  · rw [lookupField_createPatientDict_age, hdob, h23]
  · rw [lookupField_createPatientDict_age, hdob, h24]
  · simp [updatePatientDict, lookupField, lookupField_setKey_self, h23]
  · simp [updatePatientDict, lookupField, lookupField_setKey_self, h24]

/-- Witness for C7: the demo payload with `date_of_birth = 2000-06-15`
stores age 23 on 2024-06-14 and 24 on 2024-07-01 (a later 2024 date). -/
theorem C7_age_calendar_exact_witness :
    lookupField (createPatientDict
        { first_name := "Ada", last_name := "Lovelace",
          date_of_birth := ⟨2000, 6, 15⟩, gender := "Female" } "p1" none ⟨2024, 6, 14⟩)
      "age" = some (.vInt 23) ∧
    lookupField (createPatientDict
        { first_name := "Ada", last_name := "Lovelace",
          date_of_birth := ⟨2000, 6, 15⟩, gender := "Female" } "p1" none ⟨2024, 7, 1⟩)
      "age" = some (.vInt 24) ∧
    lookupField (updatePatientDict [("date_of_birth", .vDate 2000 6 15)] ⟨2024, 7, 1⟩)
      "age" = some (.vInt 24) :=
  ⟨(C7_age_calendar_exact _ "p1" none rfl 7 1 (Or.inl (by decide))).1,
   (C7_age_calendar_exact _ "p1" none rfl 7 1 (Or.inl (by decide))).2.1,
   (C7_age_calendar_exact
      { first_name := "Ada", last_name := "Lovelace",
        date_of_birth := ⟨2000, 6, 15⟩, gender := "Female" } "p1" none rfl 7 1
      (Or.inl (by decide))).2.2.2⟩

/-- C4 (amended): an unrecognized gender tag supplied to `onboard_patient`
does not fail with a `ValidationError`: the service substitutes the fallback
`"Prefer not to say"` and inserts the profile row (the table grows by one),
and an unrecognized blood-type tag is silently dropped so the stored row has
no `blood_type` value. -/
theorem C4_enum_fallback_stored (app : AppDb) (inp : OnboardInput) (newId : String)
    (today : PyDate) (btv : String)
    (hg : ¬ inp.gender ∈ genderTags)
    (hbt : inp.blood_type = some btv)
    (hbtv : ¬ btv ∈ bloodTypeTags) :
    (onboardPatientOp app inp newId today).1.patients.rows.length
        = app.patients.rows.length + 1 ∧
    ((onboardPatientOp app inp newId today).1.patients.rows.getLast?.bind
        (fun r => lookupField r "gender")) = some (.vStr "Prefer not to say") ∧
    ((onboardPatientOp app inp newId today).1.patients.rows.getLast?.bind
        (fun r => lookupField r "blood_type")) = none := by
  have hcontains : userServiceMethods.contains "mark_as_onboarded" = false := by decide
  have hrows : (onboardPatientOp app inp newId today).1.patients.rows
      = app.patients.rows ++
        [sqlRow (setKey (setKey (createPatientDict
            { first_name := inp.first_name, last_name := inp.last_name,
              date_of_birth := inp.date_of_birth, gender := parseGender inp.gender,
              email := inp.email, phone := inp.phone,
              blood_type := inp.blood_type.bind parseBloodType,
              allergies := inp.allergies, chronic_conditions := inp.chronic_conditions }
            newId (some inp.user_id) today)
          "created_at" (Value.vTime app.patients.clock))
          "updated_at" (Value.vTime (app.patients.clock + 1)))] := by
    simp [onboardPatientOp, createPatientOp, insertOp, hcontains]
    rw [if_neg (by decide)]
  rw [hrows]
  refine ⟨by simp, ?_, ?_⟩
  · rw [List.getLast?_concat, Option.some_bind, lookupField_sqlRow,
      lookupField_setKey_ne _ _ _ _ (by decide), lookupField_setKey_ne _ _ _ _ (by decide),
      lookupField_createPatientDict_gender]
    simp [parseGender, hg]
    rfl
  · rw [List.getLast?_concat, Option.some_bind, lookupField_sqlRow,
      lookupField_setKey_ne _ _ _ _ (by decide), lookupField_setKey_ne _ _ _ _ (by decide),
      lookupField_createPatientDict_bloodType]
    simp [hbt, parseBloodType, hbtv]

/-- Witness for C4: onboarding user `u1` with gender `"Banana"` and blood
type `"Z+"` (both unrecognized tags) inserts one row storing the fallback
gender and no blood type. -/
theorem C4_enum_fallback_stored_witness :
    (¬ ("Banana" : String) ∈ genderTags) ∧
    (¬ ("Z+" : String) ∈ bloodTypeTags) ∧
    (onboardPatientOp onboardApp0 badEnumInp "p1" ⟨2024, 6, 14⟩).1.patients.rows.length
        = onboardApp0.patients.rows.length + 1 ∧
    ((onboardPatientOp onboardApp0 badEnumInp "p1" ⟨2024, 6, 14⟩).1.patients.rows.getLast?.bind
        (fun r => lookupField r "gender")) = some (.vStr "Prefer not to say") ∧
    ((onboardPatientOp onboardApp0 badEnumInp "p1" ⟨2024, 6, 14⟩).1.patients.rows.getLast?.bind
        (fun r => lookupField r "blood_type")) = none :=
  ⟨by decide, by decide,
   (C4_enum_fallback_stored onboardApp0 badEnumInp "p1" ⟨2024, 6, 14⟩ "Z+"
      (by decide) rfl (by decide)).1,
   (C4_enum_fallback_stored onboardApp0 badEnumInp "p1" ⟨2024, 6, 14⟩ "Z+"
      (by decide) rfl (by decide)).2.1,
   (C4_enum_fallback_stored onboardApp0 badEnumInp "p1" ⟨2024, 6, 14⟩ "Z+"
      (by decide) rfl (by decide)).2.2⟩

/-- The stored `is_active` values of the rows matching `idField = idValue`. -/
def activeFlagsOfMatching (db : Db) (idField : String) (idValue : Value) :
    List (Option Value) :=
  (db.rows.filter (rowMatches idField idValue)).map (fun r => lookupField r "is_active")

theorem setKey_isActive_updatedAt (v t : Value) :
    setKey [("is_active", v)] "updated_at" t = [("is_active", v), ("updated_at", t)] := by
  simp [setKey]

theorem lookup_isActive_applySets (x : Record) (t : Value) :
    lookupField (applySets x [("is_active", Value.vBool false), ("updated_at", t)])
      "is_active" = some (Value.vBool false) := by
  show lookupField (setKey (setKey x "is_active" (toSqlValue (Value.vBool false)))
    "updated_at" (toSqlValue t)) "is_active" = _
  rw [lookupField_setKey_ne _ _ _ _ (by decide), lookupField_setKey_self]
  rfl

theorem rowMatches_applySets_id (idf : String) (idv : Value) (x : Record)
    (v t : Value) (h1 : idf ≠ "is_active") (h2 : idf ≠ "updated_at") :
    rowMatches idf idv (applySets x [("is_active", v), ("updated_at", t)])
      = rowMatches idf idv x := by
  unfold rowMatches
  rw [lookupField_applySets_notMem]
  simp [keysOf, h1, h2]

/-- The rows after `soft_delete`, as a pointwise map. -/
theorem softDelete_rows (db : Db) (idf : String) (idv : Value) :
    (softDelete db idf idv).1.rows
      = db.rows.map (fun r => if rowMatches idf idv r
          then applySets r [("is_active", Value.vBool false),
                            ("updated_at", Value.vTime db.clock)] else r) := by
  simp only [softDelete, updateOp, List.isEmpty_cons, Bool.false_eq_true, if_false,
    setKey_isActive_updatedAt]

/-- The boolean `soft_delete` returns. -/
theorem softDelete_snd (db : Db) (idf : String) (idv : Value) :
    (softDelete db idf idv).2 = updateReturn (matchCount db idf idv) := by
  simp only [softDelete, updateOp, List.isEmpty_cons, Bool.false_eq_true, if_false]

/-- C8: `soft_delete` is idempotent for an id column other than `is_active`
and `updated_at` that names exactly one row: both calls return true (the row
still matches, so the driver still reports `UPDATE 1`), no error is raised
(the operation is total), and after the second call the matching row still
has `is_active = false`. -/
theorem C8_soft_delete_idempotent (db : Db) (idf : String) (idv : Value)
    (hcount : matchCount db idf idv = 1)
    (h1 : idf ≠ "is_active") (h2 : idf ≠ "updated_at") :
    (softDelete db idf idv).2 = true ∧
    (softDelete (softDelete db idf idv).1 idf idv).2 = true ∧
    activeFlagsOfMatching (softDelete (softDelete db idf idv).1 idf idv).1 idf idv
      = [some (Value.vBool false)] := by
  have hg : ∀ (c : Nat) (r : Record),
      rowMatches idf idv (if rowMatches idf idv r
        then applySets r [("is_active", Value.vBool false), ("updated_at", Value.vTime c)]
        else r) = rowMatches idf idv r := by
    intro c r
    by_cases hm : rowMatches idf idv r
    · rw [if_pos hm, rowMatches_applySets_id _ _ _ _ _ h1 h2]
    · rw [if_neg hm]
  have hfilter : ∀ (c : Nat) (l : List Record),
      (l.map (fun r => if rowMatches idf idv r
          then applySets r [("is_active", Value.vBool false), ("updated_at", Value.vTime c)]
          else r)).filter (rowMatches idf idv)
        = (l.filter (rowMatches idf idv)).map (fun r => if rowMatches idf idv r
          then applySets r [("is_active", Value.vBool false), ("updated_at", Value.vTime c)]
          else r) :=
    fun c l => filter_map_comm l _ _ (hg c)
  have hcount1 : matchCount (softDelete db idf idv).1 idf idv = matchCount db idf idv := by
    unfold matchCount
    rw [softDelete_rows, hfilter, List.length_map]
  refine ⟨?_, ?_, ?_⟩
  · rw [softDelete_snd, hcount]; decide
  · rw [softDelete_snd, hcount1, hcount]; decide
  · obtain ⟨r, hr⟩ := List.length_eq_one.mp hcount
    have hrmem : rowMatches idf idv r = true := by
      have : r ∈ db.rows.filter (rowMatches idf idv) := by rw [hr]; simp
      exact (List.mem_filter.mp this).2
    unfold activeFlagsOfMatching
    rw [softDelete_rows, hfilter, softDelete_rows, hfilter, hr]
    simp only [List.map_cons, List.map_nil]
    rw [if_pos hrmem, if_pos (by rw [rowMatches_applySets_id _ _ _ _ _ h1 h2]; exact hrmem)]
    rw [lookup_isActive_applySets]

/-- Witness for C8: a one-row table whose single row matches `k = "x"`;
`soft_delete` twice returns true both times and leaves `is_active = false`. -/
theorem C8_soft_delete_idempotent_witness :
    (matchCount { rows := [c5Row], clock := 0 } "k" (Value.vStr "x") = 1) ∧
    (("k" : String) ≠ "is_active") ∧ (("k" : String) ≠ "updated_at") ∧
    ((softDelete { rows := [c5Row], clock := 0 } "k" (Value.vStr "x")).2 = true ∧
     (softDelete (softDelete { rows := [c5Row], clock := 0 } "k" (Value.vStr "x")).1
        "k" (Value.vStr "x")).2 = true ∧
     activeFlagsOfMatching
        (softDelete (softDelete { rows := [c5Row], clock := 0 } "k" (Value.vStr "x")).1
          "k" (Value.vStr "x")).1 "k" (Value.vStr "x")
       = [some (Value.vBool false)]) :=
  ⟨by decide, by decide, by decide,
   C8_soft_delete_idempotent { rows := [c5Row], clock := 0 } "k" (Value.vStr "x")
     (by decide) (by decide) (by decide)⟩

theorem keysOf_stampRecord_congr (c c' : Nat) (r r' : Record) (h : keysOf r = keysOf r') :
    keysOf (stampRecord c r) = keysOf (stampRecord c' r') := by
  unfold stampRecord
  rw [keysOf_setKey, keysOf_setKey, keysOf_setKey, keysOf_setKey, h]

theorem keysOf_stampAll_mem (c c0 : Nat) (l : List Record) (r0 : Record)
    (h : ∀ r ∈ l, keysOf r = keysOf r0) :
    ∀ r' ∈ stampAll c l, keysOf r' = keysOf (stampRecord c0 r0) := by
  induction l generalizing c with
  | nil => intro r' hr'; simp [stampAll] at hr'
  | cons r rs ih =>
    intro r' hr'
    rcases (by simpa [stampAll] using hr' :
        r' = stampRecord c r ∨ r' ∈ stampAll (c + 2) rs) with heq | hmem
    · rw [heq]
      exact keysOf_stampRecord_congr c c0 r r0 (h r (by simp))
    · exact ih (c + 2) (fun x hx => h x (by simp [hx])) r' hmem

theorem bindRows_of_keys (cols : List String) (l : List Record)
    (h : ∀ r ∈ l, keysOf r = cols) : bindRows cols l = some (l.map sqlRow) := by
  induction l with
  | nil => rfl
  | cons r rs ih =>
    have hr : keysOf r = cols := h r (by simp)
    have hlen : ((valuesOf r).map toSqlValue).length = cols.length := by
      rw [← hr, List.length_map, length_valuesOf_keysOf]
    simp only [bindRows, hlen, if_pos]
    rw [ih (fun x hx => h x (by simp [hx])), ← hr, zip_keys_values]
    rfl

/-- C10: `insert_many` builds its column list from the first record alone and
binds each record's own values in that record's own key order; for the empty
list it returns `[]` with no database access (state unchanged), and for every
nonempty batch whose records all have exactly the first record's keys in the
first record's order, it succeeds within one transaction and stores each
stamped record with every value under its own column. -/
theorem C10_insert_many_uniform_keys (db : Db) (r0 : Record) (rest : List Record)
    (hkeys : ∀ r ∈ r0 :: rest, keysOf r = keysOf r0) :
    insertManyOp db [] = .ok (db, []) ∧
    insertManyOp db (r0 :: rest)
      = .ok ({ rows := db.rows ++ (stampAll db.clock (r0 :: rest)).map sqlRow,
               clock := db.clock + 2 * (r0 :: rest).length },
             (stampAll db.clock (r0 :: rest)).map sqlRow) := by
  refine ⟨rfl, ?_⟩
  simp only [insertManyOp]
  rw [bindRows_of_keys _ _ (keysOf_stampAll_mem db.clock db.clock (r0 :: rest) r0 hkeys)]

/-- Witness for C10: a two-record batch with identical key order inserts both
records with each value under its own column, stamped with consecutive clock
pairs. -/
theorem C10_insert_many_uniform_keys_witness :
    (∀ r ∈ [[(("a" : String), Value.vInt 1), (("b" : String), Value.vInt 2)],
            [(("a" : String), Value.vInt 3), (("b" : String), Value.vInt 4)]],
        keysOf r = keysOf [(("a" : String), Value.vInt 1), (("b" : String), Value.vInt 2)]) ∧
    insertManyOp { rows := [], clock := 0 }
        [[("a", Value.vInt 1), ("b", Value.vInt 2)],
         [("a", Value.vInt 3), ("b", Value.vInt 4)]]
      = .ok ({ rows := [] ++ (stampAll 0
                  [[("a", Value.vInt 1), ("b", Value.vInt 2)],
                   [("a", Value.vInt 3), ("b", Value.vInt 4)]]).map sqlRow,
               clock := 0 + 2 * ([[("a", Value.vInt 1), ("b", Value.vInt 2)],
                   [("a", Value.vInt 3), ("b", Value.vInt 4)]] : List Record).length },
             (stampAll 0 [[("a", Value.vInt 1), ("b", Value.vInt 2)],
                   [("a", Value.vInt 3), ("b", Value.vInt 4)]]).map sqlRow) :=
  ⟨by decide,
   (C10_insert_many_uniform_keys { rows := [], clock := 0 }
      [("a", Value.vInt 1), ("b", Value.vInt 2)]
      [[("a", Value.vInt 3), ("b", Value.vInt 4)]] (by decide)).2⟩

end CareAgents
